import Mathlib

/-
Verification of the embedding-augmented indexing and retrieval workflows of
the aos-mcp repository (src/tools/embedding.py, src/tools/document.py).

Shallow embedding conventions:
* Python JSON-like values (dicts, lists, strings, numbers, None) are modelled
  by the inductive `JVal`.  Python dicts are association lists with the usual
  unique-key discipline; `dictSet` models `d[k] = v` (update in place, key
  order preserved), `alookup` models key lookup.
* Python runtime faults (KeyError, TypeError, AttributeError, IndexError) are
  modelled with `Except String`; a `try/except` block in the source becomes a
  `match` that converts a fault into the error dictionary the source builds.
  The fault payload is the Python str(e) text of the exception.
* The OpenSearch client (common/aos_client.py, outside src/) and the
  embedding HTTP endpoint are oracles: function-valued fields of `Env`.
  Workflow functions additionally return the list of calls they issued to
  an oracle, so that claims of the form "no remote call is made" are
  statements about the returned call log.  Where a claim depends on the
  client respecting its documented contract (spec section 4.2: structured
  status results, search success carries a results payload) that contract
  appears as an explicit hypothesis (`searchWF`, `clientContract`).
* Embedding scalars are never computed with by the source (only carried and
  counted), so vector entries are arbitrary `JVal`s.
-/

namespace AosMcp

/-- JSON-like Python values. -/
inductive JVal where
  | null
  | bool (b : Bool)
  | num (n : Int)
  | str (s : String)
  | arr (elems : List JVal)
  | obj (fields : List (String × JVal))

/-- A Python dict payload: association list of fields. -/
abbrev Doc := List (String × JVal)

/-- A single quote character, used in Python exception texts. -/
def q1 : String := "'"

/-- Lookup of a key in an association list (Python dict lookup). -/
def alookup : List (String × JVal) → String → Option JVal
  | [], _ => none
  | (k0, v) :: rest, k => if k0 = k then some v else alookup rest k

/-- Field lookup on a JSON value: some value iff the value is a dict holding the key. -/
def JVal.get : JVal → String → Option JVal
  | .obj kvs, k => alookup kvs k
  | _, _ => none

/-- Membership of a key in a dict. -/
def containsKey (d : List (String × JVal)) (k : String) : Bool :=
  d.any (fun kv => kv.1 == k)

/-- Python `d[k] = v`: replace the value of an existing key in place, else append. -/
def dictSet (d : Doc) (k : String) (v : JVal) : Doc :=
  if containsKey d k then d.map (fun kv => if kv.1 == k then (k, v) else kv)
  else d ++ [(k, v)]

/-- Name of the Python type of a value, as used in exception texts. -/
def pyTypeName : JVal → String
  | .null => "NoneType"
  | .bool _ => "bool"
  | .num _ => "int"
  | .str _ => "str"
  | .arr _ => "list"
  | .obj _ => "dict"

/-- Python `v == s` for a string literal `s`: true only for an equal string. -/
def isStrEq (v : JVal) (s : String) : Bool :=
  match v with
  | .str t => t == s
  | _ => false

/-- Python `v[k]` for a string key: dict lookup raising KeyError when absent,
TypeError on non-dicts. -/
def pyGetItem (v : JVal) (k : String) : Except String JVal :=
  match v with
  | .obj kvs =>
    match alookup kvs k with
    | some x => .ok x
    | none => .error (q1 ++ k ++ q1)
  | .str _ => .error "string indices must be integers"
  | .arr _ => .error "list indices must be integers or slices, not str"
  | w => .error (q1 ++ pyTypeName w ++ q1 ++ " object is not subscriptable")

/-- Python `v.get(k, dflt)`: total on dicts, AttributeError otherwise. -/
def pyGet (v : JVal) (k : String) (dflt : JVal) : Except String JVal :=
  match v with
  | .obj kvs => .ok ((alookup kvs k).getD dflt)
  | w => .error (q1 ++ pyTypeName w ++ q1 ++ " object has no attribute " ++ q1 ++ "get" ++ q1)

/-- Python `len(v)`. -/
def pyLen : JVal → Except String Nat
  | .arr xs => .ok xs.length
  | .str s => .ok s.length
  | .obj kvs => .ok kvs.length
  | v => .error ("object of type " ++ q1 ++ pyTypeName v ++ q1 ++ " has no len()")

/-- Python `v[i]` for a nonnegative integer index. -/
def pyIndex (v : JVal) (i : Nat) : Except String JVal :=
  match v with
  | .arr xs =>
    match xs.get? i with
    | some x => .ok x
    | none => .error "list index out of range"
  | .str s =>
    match s.toList.get? i with
    | some c => .ok (.str (String.mk [c]))
    | none => .error "string index out of range"
  | .obj _ => .error (toString i)
  | w => .error (q1 ++ pyTypeName w ++ q1 ++ " object is not subscriptable")

/-- Python iteration `for x in v`. -/
def pyIter : JVal → Except String (List JVal)
  | .arr xs => .ok xs
  | .str s => .ok (s.toList.map (fun c => .str (String.mk [c])))
  | .obj kvs => .ok (kvs.map (fun kv => .str kv.1))
  | v => .error (q1 ++ pyTypeName v ++ q1 ++ " object is not iterable")

/-- Python `k in v` for a string `k`. -/
def pyContains (v : JVal) (k : String) : Except String Bool :=
  match v with
  | .obj kvs => .ok (containsKey kvs k)
  | .arr xs => .ok (xs.any (fun x => isStrEq x k))
  | .str s =>
    .ok ((List.range (s.length + 1)).any
      (fun i => (s.toList.drop i).take k.length == k.toList))
  | w => .error ("argument of type " ++ q1 ++ pyTypeName w ++ q1 ++ " is not iterable")

/-- Python `v.items()`: the fields of a dict, AttributeError otherwise. -/
def pyFields : JVal → Except String (List (String × JVal))
  | .obj kvs => .ok kvs
  | v => .error (q1 ++ pyTypeName v ++ q1 ++ " object has no attribute " ++ q1 ++ "items" ++ q1)

/-- Python truthiness of an optional string (None and the empty string are falsy). -/
def pyFalsyStr : Option String → Bool
  | none => true
  | some s => s == ""

/-- Structural effectful map over Except, mirroring a Python for-loop that appends. -/
def mapME (f : JVal → Except String JVal) : List JVal → Except String (List JVal)
  | [] => .ok []
  | x :: xs => do
    let y ← f x
    let ys ← mapME f xs
    .ok (y :: ys)

/-- Outcome of one HTTP POST to the embedding endpoint:
a RequestException (from post or raise_for_status), a response whose .json()
call fails, or a parsed JSON body. -/
inductive HttpOutcome where
  | reqErr (msg : String)
  | jsonErr (msg : String)
  | ok (body : JVal)

/-- The environment of the workflows: fixed configuration plus the two remote
collaborators as oracles.  The OpenSearch client operations return
`Except String JVal`: `.error` models the client raising, `.ok` a returned
payload.  The embedding HTTP oracle is keyed by the model name and the input
text of the posted payload. -/
structure Env where
  api_token : Option String
  index_name : String
  embedHttp : String → JVal → HttpOutcome
  searchDocuments : JVal → Int → Except String JVal
  writeDocument : String → JVal → Except String JVal
  indexDocument : JVal → Except String JVal
  bulkWrite : List JVal → Except String JVal

/-- EmbeddingTools.vector_field. -/
def vector_field : String := "dense_vector"

/-- EmbeddingTools.vector_dimension. -/
def vector_dimension : Nat := 1024

/-- EmbeddingTools.default_model. -/
def default_model : String := "Pro/BAAI/bge-m3"

/-- The error dictionary built throughout the source. -/
def errObj (m : String) : JVal :=
  .obj [("status", .str "error"), ("message", .str m)]

/-- Python `model if model else self.default_model`. -/
def resolveModel (model : Option String) : String :=
  match model with
  | some m => if m == "" then default_model else m
  | none => default_model

/-- The extraction `result.get("data", [{}])[0].get("embedding", [])` of
EmbeddingTools.generate_embedding. -/
def extractEmb (body : JVal) : Except String JVal := do
  let dataV ← pyGet body "data" (.arr [.obj []])
  let first ← pyIndex dataV 0
  pyGet first "embedding" (.arr [])

/-- EmbeddingTools.generate_embedding (src/tools/embedding.py lines 15-56).
Returns the result dictionary together with the list of HTTP calls issued
(model name and posted input). -/
def generate_embedding (env : Env) (text : JVal) (model : Option String) :
    JVal × List (String × JVal) :=
  if pyFalsyStr env.api_token then
    (errObj "API token not configured for embedding service", [])
  else
    let modelName := resolveModel model
    match env.embedHttp modelName text with
    | .reqErr e => (errObj ("API request failed: " ++ e), [(modelName, text)])
    | .jsonErr e => (errObj ("Unexpected error: " ++ e), [(modelName, text)])
    | .ok body =>
      match extractEmb body with
      | .ok emb =>
        (.obj [("status", .str "success"), ("embedding", emb),
               ("model", .str modelName)], [(modelName, text)])
      | .error e => (errObj ("Unexpected error: " ++ e), [(modelName, text)])

/-- The kNN query dictionary built by EmbeddingTools.knn_search. -/
def knnQuery (vector : JVal) (k : Int) : JVal :=
  .obj [("size", .num k),
        ("query", .obj [("knn", .obj [(vector_field,
          .obj [("vector", vector), ("k", .num k)])])]),
        ("_source", .obj [("excludes", .arr [.str vector_field])])]

/-- The reshaping of one raw hit into a simplified result item
(src/tools/embedding.py lines 101-108). -/
def mkItemE (hit : JVal) : Except String JVal := do
  let src ← pyGet hit "_source" (.obj [])
  let idv ← pyGet hit "_id" .null
  let scv ← pyGet hit "_score" .null
  let tv ← pyGet src "text" (.str "")
  let md ← pyFields src
  .ok (.obj [("id", idv), ("score", scv), ("text", tv),
             ("metadata", .obj (md.filter
               (fun kv => !(kv.1 == "text") && !(kv.1 == vector_field))))])

/-- Post-processing of the client search response inside knn_search
(src/tools/embedding.py lines 97-116), inside the try block. -/
def knnProcess (result : JVal) : Except String JVal := do
  let st ← pyGetItem result "status"
  if isStrEq st "success" then
    let hasRes ← pyContains result "results"
    if hasRes then
      let resultsV ← pyGetItem result "results"
      let h1 ← pyGet resultsV "hits" (.obj [])
      let h2 ← pyGet h1 "hits" (.arr [])
      let hits ← pyIter h2
      let items ← mapME mkItemE hits
      .ok (.obj [("status", .str "success"), ("results", .arr items),
                 ("total", .num items.length)])
    else .ok result
  else .ok result

/-- EmbeddingTools.knn_search (src/tools/embedding.py lines 58-119).
The query is passed to the client as the query document (the source
serializes it with json.dumps before the call).  The second component is
the list of (query, size) search calls issued. -/
def knn_search (env : Env) (vector : JVal) (k : Int) :
    JVal × List (JVal × Int) :=
  match pyLen vector with
  | .error e => (errObj ("kNN search error: " ++ e), [])
  | .ok n =>
    if n ≠ vector_dimension then
      (errObj ("Vector dimension mismatch. Expected " ++ toString vector_dimension ++
               ", got " ++ toString n), [])
    else
      let q := knnQuery vector k
      match env.searchDocuments q k with
      | .error e => (errObj ("kNN search error: " ++ e), [(q, k)])
      | .ok r =>
        match knnProcess r with
        | .ok v => (v, [(q, k)])
        | .error e => (errObj ("kNN search error: " ++ e), [(q, k)])

/-- The per-document loop of EmbeddingTools.bulk_index_with_embeddings
(src/tools/embedding.py lines 136-151): returns the processed copies and the
(document, reason) failure pairs, in input order. -/
def bulkLoop (env : Env) (text_field : String) : List Doc →
    Except String (List Doc × List (Doc × JVal))
  | [] => .ok ([], [])
  | doc :: rest =>
    if !(containsKey doc text_field) then do
      let (p, f) ← bulkLoop env text_field rest
      .ok (p, (doc, .str ("Missing text field " ++ q1 ++ text_field ++ q1)) :: f)
    else do
      let txt := (alookup doc text_field).getD .null
      let er := (generate_embedding env txt none).1
      let st ← pyGetItem er "status"
      if !(isStrEq st "success") then do
        let msg ← pyGetItem er "message"
        let (p, f) ← bulkLoop env text_field rest
        .ok (p, (doc, msg) :: f)
      else do
        let emb ← pyGetItem er "embedding"
        let (p, f) ← bulkLoop env text_field rest
        .ok (dictSet doc vector_field emb :: p, f)

/-- The bulk body built from the processed documents
(src/tools/embedding.py lines 163-173): an action header per document, with
an explicit identifier popped out of the document into the header. -/
def mkBulkData (index_name : String) : List Doc → List JVal
  | [] => []
  | doc :: rest =>
    if containsKey doc "_id" then
      (.obj [("index", .obj [("_index", .str index_name),
                             ("_id", (alookup doc "_id").getD .null)])]) ::
      (.obj (doc.filter (fun kv => !(kv.1 == "_id")))) ::
      mkBulkData index_name rest
    else
      (.obj [("index", .obj [("_index", .str index_name)])]) ::
      (.obj doc) :: mkBulkData index_name rest

/-- The failed_docs payload: a list of doc/reason dictionaries. -/
def encodeFailed (failed : List (Doc × JVal)) : JVal :=
  .arr (failed.map (fun df => .obj [("doc", .obj df.1), ("reason", df.2)]))

/-- EmbeddingTools.bulk_index_with_embeddings (src/tools/embedding.py lines
121-186).  The second component is the list of bulk bodies sent to the
client (at most one). -/
def bulk_index_with_embeddings (env : Env) (documents : List Doc)
    (text_field : String) : JVal × List (List JVal) :=
  match bulkLoop env text_field documents with
  | .error e => (errObj ("Bulk indexing error: " ++ e), [])
  | .ok (processed, failed) =>
    if processed.isEmpty then
      (.obj [("status", .str "error"),
             ("message", .str "No documents were processed successfully"),
             ("failed_docs", encodeFailed failed)], [])
    else
      let bulkData := mkBulkData env.index_name processed
      match env.bulkWrite bulkData with
      | .error e => (errObj ("Bulk indexing error: " ++ e), [bulkData])
      | .ok resp =>
        (.obj [("status", .str "success"),
               ("response", resp),
               ("processed_count", .num processed.length),
               ("failed_count", .num failed.length),
               ("failed_docs", if failed.isEmpty then .null
                               else encodeFailed failed)], [bulkData])

/-- The index_text_with_embedding tool (src/tools/embedding.py lines
190-217).  Python aliasing of the metadata argument (`document = metadata
or \x7b\x7d` followed by item assignment mutates the caller dict whenever
metadata is truthy) is modelled by returning, as the third component, the
value of the caller dict after the call.  The second component is the list
of write calls issued (document id, document). -/
def index_text_with_embedding (env : Env) (text : String)
    (document_id : Option String) (metadata : Option Doc) :
    Except String JVal × List (Option String × JVal) × Option Doc :=
  let er := (generate_embedding env (.str text) none).1
  match pyGetItem er "status" with
  | .error e => (.error e, [], metadata)
  | .ok st =>
    if !(isStrEq st "success") then (.ok er, [], metadata)
    else
      match pyGetItem er "embedding" with
      | .error e => (.error e, [], metadata)
      | .ok emb =>
        let aliased := match metadata with
          | some m => !m.isEmpty
          | none => false
        let base : Doc := match metadata with
          | some m => if m.isEmpty then [] else m
          | none => []
        let doc := dictSet (dictSet base "text" (.str text)) vector_field emb
        let metadata1 : Option Doc := if aliased then some doc else metadata
        if !(pyFalsyStr document_id) then
          match document_id with
          | some did =>
            match env.writeDocument did (.obj doc) with
            | .ok r => (.ok r, [(some did, .obj doc)], metadata1)
            | .error e => (.error e, [(some did, .obj doc)], metadata1)
          | none =>
            match env.indexDocument (.obj doc) with
            | .ok r => (.ok r, [(none, .obj doc)], metadata1)
            | .error e => (.error e, [(none, .obj doc)], metadata1)
        else
          match env.indexDocument (.obj doc) with
          | .ok r => (.ok r, [(none, .obj doc)], metadata1)
          | .error e => (.error e, [(none, .obj doc)], metadata1)

/-- The text_similarity_search tool (src/tools/embedding.py lines 220-248).
No try block of its own: a fault in its body escapes as `.error`.  The
second component is the list of search calls issued through knn_search. -/
def text_similarity_search (env : Env) (text : String) (k : Int) :
    Except String JVal × List (JVal × Int) :=
  let er := (generate_embedding env (.str text) none).1
  match pyGetItem er "status" with
  | .error e => (.error e, [])
  | .ok st =>
    if !(isStrEq st "success") then (.ok er, [])
    else
      match pyGetItem er "embedding" with
      | .error e => (.error e, [])
      | .ok emb =>
        let sr := knn_search env emb k
        match pyGetItem sr.1 "status" with
        | .error e => (.error e, sr.2)
        | .ok st2 =>
          if isStrEq st2 "success" then
            match pyGetItem sr.1 "results" with
            | .error e => (.error e, sr.2)
            | .ok rl =>
              match pyGet sr.1 "total" (.num 0) with
              | .error e => (.error e, sr.2)
              | .ok tot =>
                (.ok (.obj [("status", .str "success"), ("query_text", .str text),
                            ("results", rl), ("total", tot)]), sr.2)
          else (.ok sr.1, sr.2)

/-- The term query built by get_document (src/tools/document.py lines 35-41). -/
def termQuery (document_id : String) : JVal :=
  .obj [("query", .obj [("term", .obj [("_id", .str document_id)])])]

/-- The not-found error dictionary of get_document. -/
def notFoundObj (document_id : String) : JVal :=
  .obj [("status", .str "error"),
        ("message", .str ("Document with ID " ++ document_id ++ " not found"))]

/-- The hit count and first-hit access of get_document: the raw subscripts
`result["results"]["hits"]["hits"]` followed by `len(...) > 0` and `[0]`. -/
def getDocLookup (r : JVal) : Except String (Option JVal) := do
  let a ← pyGetItem r "results"
  let b ← pyGetItem a "hits"
  let c ← pyGetItem b "hits"
  let n ← pyLen c
  if n > 0 then do
    let h ← pyIndex c 0
    pure (some h)
  else
    pure (none : Option JVal)

/-- The get_document tool (src/tools/document.py lines 25-53).  No try block:
a fault escapes as `.error`.  The second component is the list of search
calls issued. -/
def get_document (env : Env) (document_id : String) :
    Except String JVal × List (JVal × Int) :=
  let q := termQuery document_id
  match env.searchDocuments q 1 with
  | .error e => (.error e, [(q, 1)])
  | .ok r =>
    match pyGetItem r "status" with
    | .error e => (.error e, [(q, 1)])
    | .ok st =>
      if isStrEq st "success" then
        match getDocLookup r with
        | .error e => (.error e, [(q, 1)])
        | .ok (some h) =>
          (.ok (.obj [("status", .str "success"), ("document", h)]), [(q, 1)])
        | .ok none => (.ok (notFoundObj document_id), [(q, 1)])
      else (.ok (notFoundObj document_id), [(q, 1)])

/-- Whether a message field holding a string is present. -/
def hasStrMessage (v : JVal) : Bool :=
  match v.get "message" with
  | some (.str _) => true
  | _ => false

/-- A structured workflow result in the sense of the propagation policy:
a status discriminator that is the string success or the string error, and a
string message when the status is error. -/
def structuredB (v : JVal) : Bool :=
  match v.get "status" with
  | some st =>
    if isStrEq st "success" then true
    else if isStrEq st "error" then hasStrMessage v
    else false
  | none => false

/-- The Index Client search contract of spec section 4.2 for responses the
client returns without raising: structured status, and a results payload on
success. -/
def searchWF (env : Env) : Prop :=
  ∀ q k r, env.searchDocuments q k = .ok r →
    structuredB r = true ∧
    (r.get "status" = some (.str "success") → ∃ rv, r.get "results" = some rv)

/-- The full Index Client contract of spec section 4.2: every operation
returns (never raises) a structured status result, and search success
carries a results payload. -/
def clientContract (env : Env) : Prop :=
  (∀ q k, ∃ r, env.searchDocuments q k = .ok r) ∧
  searchWF env ∧
  (∀ i d, ∃ r, env.writeDocument i d = .ok r ∧ structuredB r = true) ∧
  (∀ d, ∃ r, env.indexDocument d = .ok r ∧ structuredB r = true) ∧
  (∀ b, ∃ r, env.bulkWrite b = .ok r ∧ structuredB r = true)

/-- The claimed condition of C8, in the words of the claim: the term-query
search yielded zero hits, i.e. returned a success whose hits list is empty. -/
def claimedSearchYieldsZeroHits (r : Except String JVal) : Bool :=
  match r with
  | .ok v =>
    (match v.get "status" with
     | some st => isStrEq st "success"
     | none => false) &&
    (match ((v.get "results").bind (fun rv => JVal.get rv "hits")).bind
            (fun h => JVal.get h "hits") with
     | some (.arr []) => true
     | _ => false)
  | .error _ => false

/-- Concrete environment with no API token configured. -/
def envNoTok : Env :=
  { api_token := none
    index_name := "default-index"
    embedHttp := fun _ _ => .ok .null
    searchDocuments := fun _ _ => .ok .null
    writeDocument := fun _ _ => .ok .null
    indexDocument := fun _ => .ok .null
    bulkWrite := fun _ => .ok .null }

/-- Concrete environment whose embedding endpoint answers with an empty JSON
object (a malformed response missing the data field), and whose search
client answers a structured error. -/
def envA : Env :=
  { api_token := some "tok"
    index_name := "default-index"
    embedHttp := fun _ _ => .ok (.obj [])
    searchDocuments := fun _ _ =>
      .ok (.obj [("status", .str "error"), ("message", .str "search failed")])
    writeDocument := fun _ _ => .ok (.obj [("status", .str "success")])
    indexDocument := fun _ => .ok (.obj [("status", .str "success")])
    bulkWrite := fun _ => .ok (.obj [("status", .str "success")]) }

/-- Concrete environment whose embedding endpoint answers a well-formed
response with a three-dimensional vector. -/
def env2c : Env :=
  { api_token := some "tok"
    index_name := "default-index"
    embedHttp := fun _ _ =>
      .ok (.obj [("data", .arr [.obj [("embedding",
            .arr [.num 1, .num 2, .num 3])]])])
    searchDocuments := fun _ _ =>
      .ok (.obj [("status", .str "error"), ("message", .str "search failed")])
    writeDocument := fun _ _ => .ok (.obj [("status", .str "success")])
    indexDocument := fun _ => .ok (.obj [("status", .str "success")])
    bulkWrite := fun _ => .ok (.obj [("status", .str "success")]) }

/-- One raw search hit used by witness environments. -/
def hitD : JVal :=
  .obj [("_id", .str "d1"), ("_score", .num 1),
        ("_source", .obj [("text", .str "hello"),
                          (vector_field, .arr [.num 0]),
                          ("cat", .str "x")])]

/-- A well-formed search success response holding one hit. -/
def respD : JVal :=
  .obj [("status", .str "success"),
        ("results", .obj [("hits", .obj [("hits", .arr [hitD])])])]

/-- Concrete environment satisfying the full client contract, with a
one-dimensional embedding answer and a single search hit. -/
def env9 : Env :=
  { api_token := some "tok"
    index_name := "default-index"
    embedHttp := fun _ _ =>
      .ok (.obj [("data", .arr [.obj [("embedding", .arr [.num 0])]])])
    searchDocuments := fun _ _ => .ok respD
    writeDocument := fun _ _ => .ok (.obj [("status", .str "success")])
    indexDocument := fun _ => .ok (.obj [("status", .str "success")])
    bulkWrite := fun _ => .ok (.obj [("status", .str "success")]) }

/-- A query vector of the configured dimension. -/
def bigVec : JVal := .arr (List.replicate vector_dimension (.num 0))

/-- Subscripting succeeds exactly on a present dict field. -/
theorem pyGetItem_ok_iff (v : JVal) (k : String) (x : JVal) :
    pyGetItem v k = .ok x ↔ v.get k = some x := by
  cases v with
  | obj kvs =>
    simp only [pyGetItem, JVal.get]
    cases h : alookup kvs k with
    | none => simp
    | some y => simp
  | null => simp [pyGetItem, JVal.get]
  | bool b => simp [pyGetItem, JVal.get]
  | num n => simp [pyGetItem, JVal.get]
  | str s => simp [pyGetItem, JVal.get]
  | arr xs => simp [pyGetItem, JVal.get]

/-- A successful field lookup means the value is a dict. -/
theorem get_some_obj (v : JVal) (k : String) (x : JVal)
    (h : v.get k = some x) : ∃ kvs, v = .obj kvs := by
  cases v with
  | obj kvs => exact ⟨kvs, rfl⟩
  | null => simp [JVal.get] at h
  | bool b => simp [JVal.get] at h
  | num n => simp [JVal.get] at h
  | str s => simp [JVal.get] at h
  | arr xs => simp [JVal.get] at h

/-- A key is present in a dict iff lookup finds it. -/
theorem containsKey_iff_alookup (kvs : List (String × JVal)) (k : String) :
    containsKey kvs k = true ↔ ∃ x, alookup kvs k = some x := by
  induction kvs with
  | nil => simp [containsKey, alookup]
  | cons kv rest ih =>
    obtain ⟨k0, v⟩ := kv
    by_cases he : k0 = k
    · subst he
      simp [containsKey, alookup]
    · simp only [containsKey, List.any_cons] at *
      simp only [alookup, if_neg he, Bool.or_eq_true]
      constructor
      · rintro (h | h)
        · exact absurd (by simpa using h) he
        · exact ih.mp h
      · intro hx
        exact Or.inr (ih.mpr hx)

/-- generate_embedding always yields either a success dictionary carrying an
embedding and a model, or the error dictionary. -/
theorem generate_embedding_shape (env : Env) (t : JVal) (m : Option String) :
    (∃ e, (generate_embedding env t m).1 =
        .obj [("status", .str "success"), ("embedding", e),
              ("model", .str (resolveModel m))]) ∨
    ∃ msg, (generate_embedding env t m).1 = errObj msg := by
  by_cases hc : pyFalsyStr env.api_token
  · right
    exact ⟨"API token not configured for embedding service",
      by simp [generate_embedding, hc]⟩
  · cases h : env.embedHttp (resolveModel m) t with
    | reqErr e =>
      right
      exact ⟨"API request failed: " ++ e, by simp [generate_embedding, hc, h]⟩
    | jsonErr e =>
      right
      exact ⟨"Unexpected error: " ++ e, by simp [generate_embedding, hc, h]⟩
    | ok body =>
      cases h2 : extractEmb body with
      | ok emb => left; exact ⟨emb, by simp [generate_embedding, hc, h, h2]⟩
      | error e =>
        right
        exact ⟨"Unexpected error: " ++ e, by simp [generate_embedding, hc, h, h2]⟩

/-- Field view of the two shapes of a generate_embedding result. -/
theorem generate_embedding_cases (env : Env) (t : JVal) (m : Option String) :
    ((generate_embedding env t m).1.get "status" = some (.str "success") ∧
     ∃ e, (generate_embedding env t m).1.get "embedding" = some e) ∨
    ((generate_embedding env t m).1.get "status" = some (.str "error") ∧
     ∃ s, (generate_embedding env t m).1.get "message" = some (.str s)) := by
  rcases generate_embedding_shape env t m with ⟨e, h⟩ | ⟨msg, h⟩
  · left
    rw [h]
    exact ⟨rfl, ⟨e, rfl⟩⟩
  · right
    rw [h]
    exact ⟨rfl, ⟨msg, rfl⟩⟩

/-- The error dictionary is structured. -/
theorem structuredB_errObj (m : String) : structuredB (errObj m) = true := rfl

/-- C7. With no API token configured (absent or empty), generate_embedding
returns the configuration error dictionary stating the token is not
configured, and issues no HTTP call. -/
theorem c7_no_token_no_call (env : Env) (text : JVal) (model : Option String)
    (h : pyFalsyStr env.api_token = true) :
    generate_embedding env text model =
      (errObj "API token not configured for embedding service", []) := by
  simp [generate_embedding, h]

/-- Witness for C7 at a concrete environment without a token. -/
theorem c7_witness :
    pyFalsyStr envNoTok.api_token = true ∧
    generate_embedding envNoTok (.str "hello") none =
      (errObj "API token not configured for embedding service", []) :=
  ⟨rfl, c7_no_token_no_call envNoTok (.str "hello") none rfl⟩

/-- C4. For every vector whose length differs from the configured dimension,
knn_search returns the dimension-mismatch error stating the expected and the
actual dimension, and issues no search call. -/
theorem c4_knn_dim_mismatch (env : Env) (v : List JVal) (k : Int)
    (h : v.length ≠ vector_dimension) :
    knn_search env (.arr v) k =
      (errObj ("Vector dimension mismatch. Expected " ++ toString vector_dimension ++
               ", got " ++ toString v.length), []) := by
  simp [knn_search, pyLen, h]

/-- Witness for C4 at the empty vector. -/
theorem c4_witness :
    (List.length ([] : List JVal) ≠ vector_dimension) ∧
    knn_search envNoTok (.arr []) 5 =
      (errObj ("Vector dimension mismatch. Expected " ++ toString vector_dimension ++
               ", got " ++ toString (List.length ([] : List JVal))), []) :=
  ⟨by decide, c4_knn_dim_mismatch envNoTok [] 5 (by decide)⟩

/-- C3 counterexample. On the malformed provider response (an empty JSON
object: no data entry at all), generate_embedding returns a success result
carrying an empty embedding, not an UnexpectedError, refuting the claim
that a malformed response never yields a success result. -/
theorem c3_counterexample :
    (generate_embedding envA (.str "hi") none).1.get "status" =
        some (.str "success") ∧
    (generate_embedding envA (.str "hi") none).1.get "embedding" =
        some (.arr []) :=
  ⟨rfl, rfl⟩

/-- C3 amended. With a configured token and a provider response body:
a body missing the data field yields a success result with an empty
embedding; a body whose data list starts with a dictionary yields a success
result with exactly the embedding field of that first entry (empty when the
field is missing); a body whose data list is empty yields the UnexpectedError
dictionary (the IndexError text). -/
theorem c3_embedding_extraction (env : Env) (text : JVal) (model : Option String)
    (body : JVal)
    (htok : pyFalsyStr env.api_token = false)
    (hhttp : env.embedHttp (resolveModel model) text = .ok body) :
    (∀ kvs, body = .obj kvs → alookup kvs "data" = none →
      (generate_embedding env text model).1 =
        .obj [("status", .str "success"), ("embedding", .arr []),
              ("model", .str (resolveModel model))]) ∧
    (∀ fkvs rest, body.get "data" = some (.arr (.obj fkvs :: rest)) →
      (generate_embedding env text model).1 =
        .obj [("status", .str "success"),
              ("embedding", (alookup fkvs "embedding").getD (.arr [])),
              ("model", .str (resolveModel model))]) ∧
    (body.get "data" = some (.arr []) →
      (generate_embedding env text model).1 =
        errObj "Unexpected error: list index out of range") := by
  refine ⟨?_, ?_, ?_⟩
  · intro kvs hbody hlookup
    subst hbody
    simp only [generate_embedding, htok, Bool.false_eq_true, if_false, hhttp,
      extractEmb, pyGet, hlookup, Option.getD]
    rfl
  · intro fkvs rest hdata
    obtain ⟨kvs, rfl⟩ := get_some_obj _ _ _ hdata
    simp only [JVal.get] at hdata
    simp only [generate_embedding, htok, Bool.false_eq_true, if_false, hhttp,
      extractEmb, pyGet, hdata, Option.getD]
    rfl
  · intro hdata
    obtain ⟨kvs, rfl⟩ := get_some_obj _ _ _ hdata
    simp only [JVal.get] at hdata
    simp only [generate_embedding, htok, Bool.false_eq_true, if_false, hhttp,
      extractEmb, pyGet, hdata, Option.getD]
    rfl

/-- Witness for C3 amended: a well-formed response returns its first
embedding vector as a success. -/
theorem c3_witness :
    (generate_embedding env9 (.str "x") none).1 =
      .obj [("status", .str "success"),
            ("embedding", (alookup [("embedding", .arr [.num 0])] "embedding").getD
              (.arr [])),
            ("model", .str (resolveModel none))] :=
  (c3_embedding_extraction env9 (.str "x") none
    (.obj [("data", .arr [.obj [("embedding", .arr [.num 0])]])])
    rfl rfl).2.1 [("embedding", .arr [.num 0])] [] rfl

/-- C2 counterexample. index_text_with_embedding stores the provider vector
without any dimension check: with a three-dimensional embedding it issues a
write call whose document carries a vector of length 3, not 1024, so a
dimension mismatch is not rejected before the remote call. -/
theorem c2_counterexample :
    (index_text_with_embedding env2c "hello" (some "id1") none).2.1 =
      [(some "id1", .obj [("text", .str "hello"),
                          (vector_field, .arr [.num 1, .num 2, .num 3])])] ∧
    pyLen (.arr [.num 1, .num 2, .num 3]) = .ok 3 ∧
    (3 : Nat) ≠ vector_dimension :=
  ⟨rfl, rfl, by decide⟩

/-- C2 amended. Only the kNN query path validates the dimension: whenever
knn_search issues a remote call, the query vector has exactly the configured
dimension and the issued call is the kNN query built from it. -/
theorem c2_knn_dimension_invariant (env : Env) (vector : JVal) (k : Int)
    (h : (knn_search env vector k).2 ≠ []) :
    pyLen vector = .ok vector_dimension ∧
    (knn_search env vector k).2 = [(knnQuery vector k, k)] := by
  cases hl : pyLen vector with
  | error e =>
    exfalso
    apply h
    simp [knn_search, hl]
  | ok n =>
    by_cases hn : n = vector_dimension
    · subst hn
      refine ⟨rfl, ?_⟩
      cases hs : env.searchDocuments (knnQuery vector k) k with
      | error e => simp [knn_search, hl, hs]
      | ok r =>
        cases hp : knnProcess r with
        | ok v => simp [knn_search, hl, hs, hp]
        | error e => simp [knn_search, hl, hs, hp]
    · exfalso
      apply h
      simp [knn_search, hl, hn]

set_option maxRecDepth 100000 in
/-- Witness for C2 amended at a vector of the configured dimension. -/
theorem c2_witness :
    pyLen bigVec = .ok vector_dimension ∧
    (knn_search envA bigVec 3).2 = [(knnQuery bigVec 3, 3)] := by
  have e : (knn_search envA bigVec 3).2 = [(knnQuery bigVec 3, 3)] := rfl
  exact c2_knn_dimension_invariant envA bigVec 3
    (by rw [e]; exact List.cons_ne_nil _ _)

/-- Bind of a success in Except. -/
theorem bindOk {α β : Type} (x : α) (f : α → Except String β) :
    (Except.ok x : Except String α) >>= f = f x := rfl

/-- Bind of a fault in Except. -/
theorem bindErr {α β : Type} (e : String) (f : α → Except String β) :
    (Except.error e : Except String α) >>= f = .error e := rfl

/-- Pure in Except is ok. -/
theorem pureOk {α : Type} (x : α) : (pure x : Except String α) = .ok x := rfl

/-- The per-document loop of bulk indexing never faults, and sorts every
input document into exactly one of the processed and the failed lists. -/
theorem bulkLoop_ok (env : Env) (field : String) (docs : List Doc) :
    ∃ p f, bulkLoop env field docs = .ok (p, f) ∧
      p.length + f.length = docs.length := by
  induction docs with
  | nil => exact ⟨[], [], rfl, rfl⟩
  | cons doc rest ih =>
    obtain ⟨p, f, hrec, hlen⟩ := ih
    by_cases hc : containsKey doc field
    · rcases generate_embedding_cases env ((alookup doc field).getD .null) none with
        ⟨hst, e, hemb⟩ | ⟨hst, s, hmsg⟩
      · refine ⟨dictSet doc vector_field e :: p, f, ?_, ?_⟩
        · simp only [bulkLoop, hc, Bool.not_true, Bool.false_eq_true, if_false,
            (pyGetItem_ok_iff _ _ _).mpr hst, bindOk, isStrEq, beq_self_eq_true,
            Bool.not_true, Bool.false_eq_true, if_false,
            (pyGetItem_ok_iff _ _ _).mpr hemb, hrec]
        · simp only [List.length_cons]
          omega
      · refine ⟨p, (doc, .str s) :: f, ?_, ?_⟩
        · simp only [bulkLoop, hc, Bool.not_true, Bool.false_eq_true, if_false,
            (pyGetItem_ok_iff _ _ _).mpr hst, bindOk, isStrEq]
          have hne : ("error" == "success") = false := rfl
          simp only [hne, Bool.not_false, if_true,
            (pyGetItem_ok_iff _ _ _).mpr hmsg, bindOk, hrec]
        · simp only [List.length_cons]
          omega
    · have hc2 : containsKey doc field = false := by simpa using hc
      refine ⟨p, (doc, .str ("Missing text field " ++ q1 ++ field ++ q1)) :: f,
        ?_, ?_⟩
      · simp only [bulkLoop, hc2, Bool.not_false, if_true, hrec, bindOk]
      · simp only [List.length_cons]
        omega

/-- C1. Every input document of bulk_index_with_embeddings lands in exactly
one of the processed and failed lists, so whenever the returned result
carries the two counts they sum to the number of input documents; and when
no document processed successfully the returned result is the error status
carrying the full failure list (one entry per input document), with no bulk
write call issued. -/
theorem c1_bulk_counts (env : Env) (docs : List Doc) (field : String)
    (p : List Doc) (f : List (Doc × JVal))
    (h : bulkLoop env field docs = .ok (p, f)) :
    p.length + f.length = docs.length ∧
    (∀ pc fc : Int,
      (bulk_index_with_embeddings env docs field).1.get "processed_count" =
          some (.num pc) →
      (bulk_index_with_embeddings env docs field).1.get "failed_count" =
          some (.num fc) →
      pc + fc = docs.length) ∧
    (p = [] →
      bulk_index_with_embeddings env docs field =
        (.obj [("status", .str "error"),
               ("message", .str "No documents were processed successfully"),
               ("failed_docs", encodeFailed f)], []) ∧
      f.length = docs.length) := by
  obtain ⟨p2, f2, h2, hlen⟩ := bulkLoop_ok env field docs
  rw [h] at h2
  injection h2 with h2
  rw [Prod.mk.injEq] at h2
  obtain ⟨hp, hf⟩ := h2
  subst hp
  subst hf
  refine ⟨hlen, ?_, ?_⟩
  · intro pc fc hpc hfc
    by_cases hemp : p.isEmpty
    · rw [show (bulk_index_with_embeddings env docs field) =
          (.obj [("status", .str "error"),
                 ("message", .str "No documents were processed successfully"),
                 ("failed_docs", encodeFailed f)], []) from by
        simp [bulk_index_with_embeddings, h, hemp]] at hpc
      simp [JVal.get, alookup] at hpc
    · cases hw : env.bulkWrite (mkBulkData env.index_name p) with
      | error e =>
        rw [show (bulk_index_with_embeddings env docs field).1 =
            errObj ("Bulk indexing error: " ++ e) from by
          simp [bulk_index_with_embeddings, h, hemp, hw]] at hpc
        simp [errObj, JVal.get, alookup] at hpc
      | ok resp =>
        rw [show (bulk_index_with_embeddings env docs field).1 =
            .obj [("status", .str "success"),
                  ("response", resp),
                  ("processed_count", .num p.length),
                  ("failed_count", .num f.length),
                  ("failed_docs", if f.isEmpty then .null
                                  else encodeFailed f)] from by
          simp [bulk_index_with_embeddings, h, hemp, hw]] at hpc hfc
        simp [JVal.get, alookup] at hpc hfc
        subst hpc
        subst hfc
        rw [← hlen]
        push_cast
        ring
  · intro hp0
    subst hp0
    constructor
    · simp [bulk_index_with_embeddings, h, List.isEmpty_nil]
    · simpa using hlen

/-- Witness for C1: a single document missing the text field fails, the
counts sum, and the batch returns the error result without a bulk call. -/
theorem c1_witness :
    bulkLoop envNoTok "text" [[("foo", .str "b")]] =
      .ok ([], [([("foo", .str "b")],
        .str ("Missing text field " ++ q1 ++ "text" ++ q1))]) ∧
    bulk_index_with_embeddings envNoTok [[("foo", .str "b")]] "text" =
      (.obj [("status", .str "error"),
             ("message", .str "No documents were processed successfully"),
             ("failed_docs", encodeFailed [([("foo", .str "b")],
               .str ("Missing text field " ++ q1 ++ "text" ++ q1))])], []) := by
  have h : bulkLoop envNoTok "text" [[("foo", .str "b")]] =
      .ok ([], [([("foo", .str "b")],
        .str ("Missing text field " ++ q1 ++ "text" ++ q1))]) := rfl
  exact ⟨h, ((c1_bulk_counts envNoTok _ "text" _ _ h).2.2 rfl).1⟩

/-- Members of a successful effectful map come from members of the input. -/
theorem mapME_ok_mem (f : JVal → Except String JVal) (xs ys : List JVal)
    (h : mapME f xs = .ok ys) : ∀ y ∈ ys, ∃ x ∈ xs, f x = .ok y := by
  induction xs generalizing ys with
  | nil =>
    simp only [mapME] at h
    injection h with h
    subst h
    simp
  | cons x xs ih =>
    simp only [mapME] at h
    cases hf : f x with
    | error e =>
      rw [hf, bindErr] at h
      exact absurd h (by simp)
    | ok y0 =>
      rw [hf, bindOk] at h
      cases hr : mapME f xs with
      | error e =>
        rw [hr, bindErr] at h
        exact absurd h (by simp)
      | ok ys0 =>
        rw [hr, bindOk] at h
        injection h with h
        subst h
        intro y hy
        rcases List.mem_cons.mp hy with rfl | hy
        · exact ⟨x, List.mem_cons_self _ _, hf⟩
        · obtain ⟨x2, hx2, hfx⟩ := ih ys0 hr y hy
          exact ⟨x2, List.mem_cons_of_mem _ hx2, hfx⟩

/-- A successfully reshaped hit is the id/score/text/metadata dictionary,
with the metadata the source fields stripped of the text and vector fields. -/
theorem mkItemE_ok_shape (hit it : JVal) (h : mkItemE hit = .ok it) :
    ∃ idv scv src, it = .obj [("id", idv), ("score", scv),
      ("text", (alookup src "text").getD (.str "")),
      ("metadata", .obj (src.filter
        (fun kv => !(kv.1 == "text") && !(kv.1 == vector_field))))] := by
  unfold mkItemE at h
  cases h1 : pyGet hit "_source" (.obj []) with
  | error e => rw [h1, bindErr] at h; exact absurd h (by simp)
  | ok srcv =>
    rw [h1, bindOk] at h
    cases h2 : pyGet hit "_id" .null with
    | error e => rw [h2, bindErr] at h; exact absurd h (by simp)
    | ok idv =>
      rw [h2, bindOk] at h
      cases h3 : pyGet hit "_score" .null with
      | error e => rw [h3, bindErr] at h; exact absurd h (by simp)
      | ok scv =>
        rw [h3, bindOk] at h
        cases srcv with
        | obj src =>
          simp only [pyGet, bindOk, pyFields] at h
          injection h with h
          exact ⟨idv, scv, src, h.symm⟩
        | null => simp [pyGet, bindErr] at h
        | bool b => simp [pyGet, bindErr] at h
        | num n => simp [pyGet, bindErr] at h
        | str s => simp [pyGet, bindErr] at h
        | arr xs => simp [pyGet, bindErr] at h

/-- The vector field never survives the metadata filter. -/
theorem alookup_filter_excluded (src : List (String × JVal)) :
    alookup (src.filter
      (fun kv => !(kv.1 == "text") && !(kv.1 == vector_field)))
      vector_field = none := by
  induction src with
  | nil => rfl
  | cons kv rest ih =>
    by_cases hp : (!(kv.1 == "text") && !(kv.1 == vector_field)) = true
    · rw [List.filter_cons, if_pos hp]
      have hne : ¬ kv.1 = vector_field := by
        intro he
        rw [he] at hp
        simp at hp
      obtain ⟨k0, v0⟩ := kv
      simpa [alookup, hne] using ih
    · rw [List.filter_cons, if_neg hp]
      exact ih

/-- A successful knnProcess whose value reads as a success with a results
list is the reshaped form: the total is the list length and every item is a
reshaped hit. -/
theorem knnProcess_ok_shape (r v : JVal) (rl : List JVal)
    (hp : knnProcess r = .ok v)
    (hst : v.get "status" = some (.str "success"))
    (hrl : v.get "results" = some (.arr rl)) :
    v.get "total" = some (.num (rl.length : Int)) ∧
    ∀ it ∈ rl, ∃ hit, mkItemE hit = .ok it := by
  unfold knnProcess at hp
  cases h1 : pyGetItem r "status" with
  | error e => rw [h1, bindErr] at hp; exact absurd hp (by simp)
  | ok st =>
    rw [h1, bindOk] at hp
    by_cases h2 : isStrEq st "success" = true
    · rw [if_pos h2] at hp
      cases h3 : pyContains r "results" with
      | error e => rw [h3, bindErr] at hp; exact absurd hp (by simp)
      | ok hasRes =>
        rw [h3, bindOk] at hp
        by_cases h4 : hasRes = true
        · rw [if_pos h4] at hp
          cases h5 : pyGetItem r "results" with
          | error e => rw [h5, bindErr] at hp; exact absurd hp (by simp)
          | ok resultsV =>
            rw [h5, bindOk] at hp
            cases h6 : pyGet resultsV "hits" (.obj []) with
            | error e => rw [h6, bindErr] at hp; exact absurd hp (by simp)
            | ok hv1 =>
              rw [h6, bindOk] at hp
              cases h7 : pyGet hv1 "hits" (.arr []) with
              | error e => rw [h7, bindErr] at hp; exact absurd hp (by simp)
              | ok hv2 =>
                rw [h7, bindOk] at hp
                cases h8 : pyIter hv2 with
                | error e => rw [h8, bindErr] at hp; exact absurd hp (by simp)
                | ok hits =>
                  rw [h8, bindOk] at hp
                  cases h9 : mapME mkItemE hits with
                  | error e => rw [h9, bindErr] at hp; exact absurd hp (by simp)
                  | ok items =>
                    rw [h9, bindOk] at hp
                    injection hp with hp
                    subst hp
                    simp only [JVal.get, alookup] at hrl
                    norm_num at hrl
                    injection hrl with hrl
                    injection hrl with hrl
                    subst hrl
                    exact ⟨rfl, fun it hit => by
                      obtain ⟨x, _, hfx⟩ := mapME_ok_mem mkItemE hits items h9 it hit
                      exact ⟨x, hfx⟩⟩
        · rw [if_neg h4] at hp
          injection hp with hp
          subst hp
          obtain ⟨kvs, rfl⟩ := get_some_obj _ _ _ hrl
          simp only [JVal.get] at hrl
          have : containsKey kvs "results" = true :=
            (containsKey_iff_alookup kvs "results").mpr ⟨_, hrl⟩
          simp [pyContains, this] at h3
          exact absurd h3 h4
    · rw [if_neg h2] at hp
      injection hp with hp
      subst hp
      have h1v := (pyGetItem_ok_iff _ _ _).mp h1
      rw [hst] at h1v
      injection h1v with h1v
      rw [← h1v] at h2
      simp [isStrEq] at h2

/-- A knn_search outcome that reads as a success with a results list is the
reshaped form: the total equals the list length, and every item is the
id/score/text/metadata view of some hit with the text and vector fields
stripped from the metadata. -/
theorem knn_success_items (env : Env) (vector : JVal) (k : Int) (rl : List JVal)
    (hst : (knn_search env vector k).1.get "status" = some (.str "success"))
    (hrl : (knn_search env vector k).1.get "results" = some (.arr rl)) :
    (knn_search env vector k).1.get "total" = some (.num (rl.length : Int)) ∧
    ∀ it ∈ rl, ∃ idv scv src, it = .obj [("id", idv), ("score", scv),
      ("text", (alookup src "text").getD (.str "")),
      ("metadata", .obj (src.filter
        (fun kv => !(kv.1 == "text") && !(kv.1 == vector_field))))] ∧
      ∀ md, it.get "metadata" = some (.obj md) →
        alookup md vector_field = none := by
  have main : (knn_search env vector k).1.get "total" =
      some (.num (rl.length : Int)) ∧
      ∀ it ∈ rl, ∃ hit, mkItemE hit = .ok it := by
    cases hl : pyLen vector with
    | error e =>
      rw [show (knn_search env vector k).1 =
          errObj ("kNN search error: " ++ e) from by simp [knn_search, hl]] at hst
      simp [errObj, JVal.get, alookup] at hst
    | ok n =>
      by_cases hn : n = vector_dimension
      · subst hn
        cases hs : env.searchDocuments (knnQuery vector k) k with
        | error e =>
          rw [show (knn_search env vector k).1 =
              errObj ("kNN search error: " ++ e) from by
            simp [knn_search, hl, hs]] at hst
          simp [errObj, JVal.get, alookup] at hst
        | ok r =>
          cases hp : knnProcess r with
          | error e =>
            rw [show (knn_search env vector k).1 =
                errObj ("kNN search error: " ++ e) from by
              simp [knn_search, hl, hs, hp]] at hst
            simp [errObj, JVal.get, alookup] at hst
          | ok v =>
            have hv : (knn_search env vector k).1 = v := by
              simp [knn_search, hl, hs, hp]
            rw [hv] at hst hrl ⊢
            exact knnProcess_ok_shape r v rl hp hst hrl
      · rw [show (knn_search env vector k).1 =
            errObj ("Vector dimension mismatch. Expected " ++
              toString vector_dimension ++ ", got " ++ toString n) from by
          simp [knn_search, hl, hn]] at hst
        simp [errObj, JVal.get, alookup] at hst
  obtain ⟨htot, hitems⟩ := main
  refine ⟨htot, ?_⟩
  intro it hit
  obtain ⟨hit0, hmk⟩ := hitems it hit
  obtain ⟨idv, scv, src, hshape⟩ := mkItemE_ok_shape _ _ hmk
  refine ⟨idv, scv, src, hshape, ?_⟩
  intro md hmd
  rw [hshape] at hmd
  simp only [JVal.get, alookup] at hmd
  norm_num at hmd
  injection hmd with hmd
  injection hmd with hmd
  rw [← hmd]
  exact alookup_filter_excluded src

/-- C5.  Every successful knn_search (and hence every successful
text_similarity_search) returns items made of id, score, text and a
metadata mapping equal to the source fields minus the text field and the
reserved vector field — in particular no metadata ever holds the vector
field — and a total equal to the length of the results list. -/
theorem c5_result_items :
    (∀ (env : Env) (vector : JVal) (k : Int) (rl : List JVal),
      (knn_search env vector k).1.get "status" = some (.str "success") →
      (knn_search env vector k).1.get "results" = some (.arr rl) →
      (knn_search env vector k).1.get "total" = some (.num (rl.length : Int)) ∧
      ∀ it ∈ rl, ∃ idv scv src, it = .obj [("id", idv), ("score", scv),
        ("text", (alookup src "text").getD (.str "")),
        ("metadata", .obj (src.filter
          (fun kv => !(kv.1 == "text") && !(kv.1 == vector_field))))] ∧
        ∀ md, it.get "metadata" = some (.obj md) →
          alookup md vector_field = none) ∧
    (∀ (env : Env) (text : String) (k : Int) (w : JVal) (rl : List JVal),
      (text_similarity_search env text k).1 = .ok w →
      w.get "status" = some (.str "success") →
      w.get "results" = some (.arr rl) →
      w.get "total" = some (.num (rl.length : Int)) ∧
      ∀ it ∈ rl, ∃ idv scv src, it = .obj [("id", idv), ("score", scv),
        ("text", (alookup src "text").getD (.str "")),
        ("metadata", .obj (src.filter
          (fun kv => !(kv.1 == "text") && !(kv.1 == vector_field))))] ∧
        ∀ md, it.get "metadata" = some (.obj md) →
          alookup md vector_field = none) := by
  refine ⟨knn_success_items, ?_⟩
  intro env text k w rl hw hst hrl
  unfold text_similarity_search at hw
  cases h1 : pyGetItem (generate_embedding env (.str text) none).1 "status" with
  | error e => simp [h1] at hw
  | ok st =>
    by_cases h2 : isStrEq st "success" = true
    · simp only [h1, h2, Bool.not_true, Bool.false_eq_true, if_false] at hw
      cases h3 : pyGetItem (generate_embedding env (.str text) none).1
          "embedding" with
      | error e => simp [h3] at hw
      | ok emb =>
        simp only [h3] at hw
        cases h4 : pyGetItem (knn_search env emb k).1 "status" with
        | error e => simp [h4] at hw
        | ok st2 =>
          by_cases h5 : isStrEq st2 "success" = true
          · simp only [h4, h5, if_true] at hw
            cases h6 : pyGetItem (knn_search env emb k).1 "results" with
            | error e => simp [h6] at hw
            | ok rlv =>
              simp only [h6] at hw
              cases h7 : pyGet (knn_search env emb k).1 "total" (.num 0) with
              | error e => simp [h7] at hw
              | ok tot =>
                simp only [h7, Except.ok.injEq] at hw
                subst hw
                simp only [JVal.get, alookup] at hst hrl
                norm_num at hrl
                injection hrl with hrl
                subst hrl
                have hknnst : (knn_search env emb k).1.get "status" =
                    some st2 := (pyGetItem_ok_iff _ _ _).mp h4
                have hst2 : st2 = .str "success" := by
                  cases st2 with
                  | str s =>
                    simp only [isStrEq, beq_iff_eq] at h5
                    rw [h5]
                  | null => simp [isStrEq] at h5
                  | bool b => simp [isStrEq] at h5
                  | num n => simp [isStrEq] at h5
                  | arr xs => simp [isStrEq] at h5
                  | obj kvs => simp [isStrEq] at h5
                rw [hst2] at hknnst
                have hknnrl : (knn_search env emb k).1.get "results" =
                    some (.arr rl) := (pyGetItem_ok_iff _ _ _).mp h6
                obtain ⟨htot, hitems⟩ :=
                  knn_success_items env emb k rl hknnst hknnrl
                obtain ⟨kvs, hobj⟩ := get_some_obj _ _ _ hknnrl
                rw [hobj] at htot h7
                simp only [JVal.get] at htot
                simp only [pyGet] at h7
                injection h7 with h7
                rw [htot] at h7
                simp only [Option.getD] at h7
                refine ⟨?_, hitems⟩
                simp only [JVal.get, alookup]
                simp [← h7]
          · simp only [h4, h5, Bool.false_eq_true, if_false,
              Except.ok.injEq] at hw
            subst hw
            have hknnst := (pyGetItem_ok_iff _ _ _).mp h4
            rw [hst] at hknnst
            injection hknnst with hknnst
            rw [← hknnst] at h5
            simp [isStrEq] at h5
    · have h2f : isStrEq st "success" = false := by simpa using h2
      simp only [h1, h2f, Bool.not_false, if_true, Except.ok.injEq] at hw
      subst hw
      have hest := (pyGetItem_ok_iff _ _ _).mp h1
      rw [hst] at hest
      injection hest with hest
      rw [← hest] at h2
      simp [isStrEq] at h2

set_option maxRecDepth 100000 in
/-- Witness for C5 at a concrete one-hit search: the stored vector field is
stripped from the returned metadata and the total is the item count. -/
theorem c5_witness :
    (knn_search env9 bigVec 10).1.get "status" = some (.str "success") ∧
    (knn_search env9 bigVec 10).1.get "results" =
      some (.arr [.obj [("id", .str "d1"), ("score", .num 1),
        ("text", .str "hello"), ("metadata", .obj [("cat", .str "x")])]]) ∧
    (knn_search env9 bigVec 10).1.get "total" = some (.num 1) := by
  have h1 : (knn_search env9 bigVec 10).1.get "status" =
      some (.str "success") := rfl
  have h2 : (knn_search env9 bigVec 10).1.get "results" =
      some (.arr [.obj [("id", .str "d1"), ("score", .num 1),
        ("text", .str "hello"), ("metadata", .obj [("cat", .str "x")])]]) := rfl
  exact ⟨h1, h2, (c5_result_items.1 env9 bigVec 10 _ h1 h2).1⟩

/-- Boolean string comparison agrees with equality to the string value. -/
theorem isStrEq_eq_true_iff (v : JVal) (s : String) :
    isStrEq v s = true ↔ v = .str s := by
  cases v <;> simp [isStrEq]

/-- Under the search contract, a successful knn_search outcome always carries
a results list and the matching total (the raw pass-through of a success
without results cannot happen). -/
theorem knn_success_has_results (env : Env) (vector : JVal) (k : Int)
    (hwf : searchWF env)
    (hst : (knn_search env vector k).1.get "status" = some (.str "success")) :
    ∃ rl : List JVal,
      (knn_search env vector k).1.get "results" = some (.arr rl) ∧
      (knn_search env vector k).1.get "total" = some (.num (rl.length : Int)) := by
  cases hl : pyLen vector with
  | error e =>
    rw [show (knn_search env vector k).1 =
        errObj ("kNN search error: " ++ e) from by simp [knn_search, hl]] at hst
    simp [errObj, JVal.get, alookup] at hst
  | ok n =>
    by_cases hn : n = vector_dimension
    · subst hn
      cases hs : env.searchDocuments (knnQuery vector k) k with
      | error e =>
        rw [show (knn_search env vector k).1 =
            errObj ("kNN search error: " ++ e) from by
          simp [knn_search, hl, hs]] at hst
        simp [errObj, JVal.get, alookup] at hst
      | ok r =>
        cases hp : knnProcess r with
        | error e =>
          rw [show (knn_search env vector k).1 =
              errObj ("kNN search error: " ++ e) from by
            simp [knn_search, hl, hs, hp]] at hst
          simp [errObj, JVal.get, alookup] at hst
        | ok v =>
          have hv : (knn_search env vector k).1 = v := by
            simp [knn_search, hl, hs, hp]
          rw [hv] at hst ⊢
          unfold knnProcess at hp
          cases h1 : pyGetItem r "status" with
          | error e => rw [h1, bindErr] at hp; exact absurd hp (by simp)
          | ok st =>
            rw [h1, bindOk] at hp
            by_cases h2 : isStrEq st "success" = true
            · rw [if_pos h2] at hp
              cases h3 : pyContains r "results" with
              | error e => rw [h3, bindErr] at hp; exact absurd hp (by simp)
              | ok hasRes =>
                rw [h3, bindOk] at hp
                by_cases h4 : hasRes = true
                · rw [if_pos h4] at hp
                  cases h5 : pyGetItem r "results" with
                  | error e => rw [h5, bindErr] at hp; exact absurd hp (by simp)
                  | ok resultsV =>
                    rw [h5, bindOk] at hp
                    cases h6 : pyGet resultsV "hits" (.obj []) with
                    | error e => rw [h6, bindErr] at hp; exact absurd hp (by simp)
                    | ok hv1 =>
                      rw [h6, bindOk] at hp
                      cases h7 : pyGet hv1 "hits" (.arr []) with
                      | error e =>
                        rw [h7, bindErr] at hp; exact absurd hp (by simp)
                      | ok hv2 =>
                        rw [h7, bindOk] at hp
                        cases h8 : pyIter hv2 with
                        | error e =>
                          rw [h8, bindErr] at hp; exact absurd hp (by simp)
                        | ok hits =>
                          rw [h8, bindOk] at hp
                          cases h9 : mapME mkItemE hits with
                          | error e =>
                            rw [h9, bindErr] at hp; exact absurd hp (by simp)
                          | ok items =>
                            rw [h9, bindOk] at hp
                            injection hp with hp
                            subst hp
                            exact ⟨items, rfl, rfl⟩
                · rw [if_neg h4] at hp
                  injection hp with hp
                  subst hp
                  obtain ⟨hstr, hres⟩ := hwf _ _ _ hs
                  obtain ⟨rv, hrv⟩ := hres hst
                  obtain ⟨kvs, hobj⟩ := get_some_obj _ _ _ hrv
                  subst hobj
                  simp only [JVal.get] at hrv
                  have : containsKey kvs "results" = true :=
                    (containsKey_iff_alookup kvs "results").mpr ⟨_, hrv⟩
                  simp [pyContains, this] at h3
                  exact absurd h3 h4
            · rw [if_neg h2] at hp
              injection hp with hp
              subst hp
              have h1v := (pyGetItem_ok_iff _ _ _).mp h1
              rw [hst] at h1v
              injection h1v with h1v
              rw [← h1v] at h2
              simp [isStrEq] at h2
    · rw [show (knn_search env vector k).1 =
          errObj ("Vector dimension mismatch. Expected " ++
            toString vector_dimension ++ ", got " ++ toString n) from by
        simp [knn_search, hl, hn]] at hst
      simp [errObj, JVal.get, alookup] at hst

/-- C6.  text_similarity_search first embeds the text; an embedding failure
is returned unchanged with no kNN call; a kNN failure is returned unchanged;
on success the wrapped result carries exactly the query text, the results
list from knn_search and its total. -/
theorem c6_short_circuit (env : Env) (text : String) (k : Int)
    (hwf : searchWF env) :
    (∀ st, (generate_embedding env (.str text) none).1.get "status" = some st →
      ¬ st = .str "success" →
      text_similarity_search env text k =
        (.ok (generate_embedding env (.str text) none).1, [])) ∧
    ((generate_embedding env (.str text) none).1.get "status" =
        some (.str "success") →
     ∀ emb, (generate_embedding env (.str text) none).1.get "embedding" =
        some emb →
     (∀ st2, (knn_search env emb k).1.get "status" = some st2 →
        ¬ st2 = .str "success" →
        text_similarity_search env text k =
          (.ok (knn_search env emb k).1, (knn_search env emb k).2)) ∧
     ((knn_search env emb k).1.get "status" = some (.str "success") →
      ∃ rl : List JVal,
        (knn_search env emb k).1.get "results" = some (.arr rl) ∧
        (knn_search env emb k).1.get "total" = some (.num (rl.length : Int)) ∧
        text_similarity_search env text k =
          (.ok (.obj [("status", .str "success"), ("query_text", .str text),
                      ("results", .arr rl), ("total", .num (rl.length : Int))]),
           (knn_search env emb k).2))) := by
  constructor
  · intro st hget hne
    have hf : isStrEq st "success" = false := by
      cases hb : isStrEq st "success"
      · rfl
      · exact absurd ((isStrEq_eq_true_iff _ _).mp hb) hne
    simp only [text_similarity_search, (pyGetItem_ok_iff _ _ _).mpr hget, hf,
      Bool.not_false, if_true]
  · intro hsucc emb hemb
    have hget_ok := (pyGetItem_ok_iff _ _ _).mpr hsucc
    have hembok := (pyGetItem_ok_iff _ _ _).mpr hemb
    constructor
    · intro st2 hst2 hne2
      have hf2 : isStrEq st2 "success" = false := by
        cases hb : isStrEq st2 "success"
        · rfl
        · exact absurd ((isStrEq_eq_true_iff _ _).mp hb) hne2
      simp only [text_similarity_search, hget_ok,
        (show isStrEq (.str "success") "success" = true from rfl),
        Bool.not_true, Bool.false_eq_true, if_false, hembok,
        (pyGetItem_ok_iff _ _ _).mpr hst2, hf2]
    · intro hsucc2
      obtain ⟨rl, hres, htot⟩ := knn_success_has_results env emb k hwf hsucc2
      obtain ⟨kvs, hobj⟩ := get_some_obj _ _ _ hres
      have htot2 : alookup kvs "total" = some (.num (rl.length : Int)) := by
        rw [hobj] at htot
        simpa [JVal.get] using htot
      have h7 : pyGet (knn_search env emb k).1 "total" (.num 0) =
          .ok (.num (rl.length : Int)) := by
        rw [hobj]
        simp [pyGet, htot2]
      refine ⟨rl, hres, htot, ?_⟩
      simp only [text_similarity_search, hget_ok,
        (show isStrEq (.str "success") "success" = true from rfl),
        Bool.not_true, Bool.false_eq_true, if_false, hembok,
        (pyGetItem_ok_iff _ _ _).mpr hsucc2,
        (pyGetItem_ok_iff _ _ _).mpr hres, h7, if_true]

/-- The concrete error-answering client satisfies the search contract. -/
theorem envA_searchWF : searchWF envA := by
  intro q k r h
  injection h with h
  rw [← h]
  constructor
  · rfl
  · intro hs
    simp [JVal.get, alookup] at hs

/-- Witness for C6: with a one-dimensional embedding the kNN step fails on
the dimension check and text_similarity_search returns that error unchanged
with no search call issued. -/
theorem c6_witness :
    text_similarity_search envA "hi" 7 =
      (.ok (errObj ("Vector dimension mismatch. Expected " ++
        toString vector_dimension ++ ", got " ++ toString (0 : Nat))), []) := by
  have h := c6_short_circuit envA "hi" 7 envA_searchWF
  have hsucc : (generate_embedding envA (.str "hi") none).1.get "status" =
      some (.str "success") := rfl
  have hemb : (generate_embedding envA (.str "hi") none).1.get "embedding" =
      some (.arr []) := rfl
  have hk : (knn_search envA (.arr []) 7).1.get "status" =
      some (.str "error") := rfl
  exact (h.2 hsucc (.arr []) hemb).1 (.str "error") hk (by simp)

/-- C8 counterexample.  When the search itself fails (a structured error
response), get_document also returns the not-found error, although the
search did not yield zero hits — it yielded no hits payload at all.  So the
not-found error is not returned exactly when the search yields zero hits. -/
theorem c8_counterexample :
    (get_document envA "doc1").1 = .ok (notFoundObj "doc1") ∧
    claimedSearchYieldsZeroHits
      (envA.searchDocuments (termQuery "doc1") 1) = false :=
  ⟨rfl, rfl⟩

/-- C8 amended.  get_document always issues exactly one term-query search on
the identifier field with size 1; it returns the not-found error whenever
the search response is not a success or the hits list is empty, and returns
the first hit as a success result whenever the search succeeds with at
least one hit. -/
theorem c8_get_document (env : Env) (document_id : String) :
    (get_document env document_id).2 = [(termQuery document_id, 1)] ∧
    (∀ v st, env.searchDocuments (termQuery document_id) 1 = .ok v →
      v.get "status" = some st → ¬ st = .str "success" →
      (get_document env document_id).1 = .ok (notFoundObj document_id)) ∧
    (∀ v hits, env.searchDocuments (termQuery document_id) 1 = .ok v →
      v.get "status" = some (.str "success") →
      ((v.get "results").bind (fun a => JVal.get a "hits")).bind
        (fun b => JVal.get b "hits") = some (.arr hits) →
      (hits = [] →
        (get_document env document_id).1 = .ok (notFoundObj document_id)) ∧
      (∀ h t, hits = h :: t →
        (get_document env document_id).1 =
          .ok (.obj [("status", .str "success"), ("document", h)]))) := by
  refine ⟨?_, ?_, ?_⟩
  · cases hs : env.searchDocuments (termQuery document_id) 1 with
    | error e => simp [get_document, hs]
    | ok r =>
      cases h1 : pyGetItem r "status" with
      | error e => simp [get_document, hs, h1]
      | ok st =>
        by_cases h2 : isStrEq st "success" = true
        · cases h3 : getDocLookup r with
          | error e => simp [get_document, hs, h1, h2, h3]
          | ok o =>
            cases o with
            | some h => simp [get_document, hs, h1, h2, h3]
            | none => simp [get_document, hs, h1, h2, h3]
        · have h2f : isStrEq st "success" = false := by simpa using h2
          simp [get_document, hs, h1, h2f]
  · intro v st hs hstat hne
    have h2f : isStrEq st "success" = false := by
      cases hb : isStrEq st "success"
      · rfl
      · exact absurd ((isStrEq_eq_true_iff _ _).mp hb) hne
    simp [get_document, hs, (pyGetItem_ok_iff _ _ _).mpr hstat, h2f]
  · intro v hits hs hstat hchain
    cases hra : v.get "results" with
    | none => rw [hra] at hchain; simp at hchain
    | some a =>
      cases hrb : a.get "hits" with
      | none =>
        simp only [hra, Option.some_bind', hrb, Option.none_bind'] at hchain
        simp at hchain
      | some b =>
        have hchain2 : b.get "hits" = some (.arr hits) := by
          simpa only [hra, Option.some_bind', hrb] using hchain
        constructor
        · intro h0
          subst h0
          have hl : getDocLookup v = .ok none := by
            simp [getDocLookup, (pyGetItem_ok_iff _ _ _).mpr hra, bindOk,
              (pyGetItem_ok_iff _ _ _).mpr hrb,
              (pyGetItem_ok_iff _ _ _).mpr hchain2, pyLen, pureOk]
          simp [get_document, hs, (pyGetItem_ok_iff _ _ _).mpr hstat,
            (show isStrEq (.str "success") "success" = true from rfl), hl]
        · intro h t hht
          subst hht
          have hl : getDocLookup v = .ok (some h) := by
            simp [getDocLookup, (pyGetItem_ok_iff _ _ _).mpr hra, bindOk,
              (pyGetItem_ok_iff _ _ _).mpr hrb,
              (pyGetItem_ok_iff _ _ _).mpr hchain2, pyLen, pyIndex, pureOk]
          simp [get_document, hs, (pyGetItem_ok_iff _ _ _).mpr hstat,
            (show isStrEq (.str "success") "success" = true from rfl), hl]

/-- Witness for C8 amended on a one-hit success response: the term query is
issued with size 1 and the first hit comes back as a success document. -/
theorem c8_witness :
    (get_document env9 "d1").2 = [(termQuery "d1", 1)] ∧
    (get_document env9 "d1").1 =
      .ok (.obj [("status", .str "success"), ("document", hitD)]) := by
  have h := c8_get_document env9 "d1"
  exact ⟨h.1, (h.2.2 respD [hitD] rfl rfl rfl).2 hitD [] rfl⟩

/-- Updating an existing key in place does not change other lookups. -/
theorem alookup_map_setkey (d : Doc) (k : String) (v : JVal) (k2 : String)
    (h : ¬ k2 = k) :
    alookup (d.map (fun kv => if kv.1 == k then (k, v) else kv)) k2 =
      alookup d k2 := by
  induction d with
  | nil => rfl
  | cons kv rest ih =>
    obtain ⟨k0, v0⟩ := kv
    simp only [List.map_cons]
    by_cases he : (k0 == k) = true
    · have hk0 : k0 = k := by simpa using he
      simp only [he, if_true]
      simp only [alookup]
      rw [if_neg (fun hh => h hh.symm), if_neg (by rw [hk0]; exact fun hh => h hh.symm)]
      exact ih
    · have he2 : (k0 == k) = false := by simpa using he
      simp only [he2, Bool.false_eq_true, if_false]
      simp only [alookup]
      by_cases h2 : k0 = k2
      · rw [if_pos h2, if_pos h2]
      · rw [if_neg h2, if_neg h2]
        exact ih

/-- Appending a fresh key does not change other lookups. -/
theorem alookup_append_single_ne (d : Doc) (k : String) (v : JVal) (k2 : String)
    (h : ¬ k2 = k) : alookup (d ++ [(k, v)]) k2 = alookup d k2 := by
  induction d with
  | nil =>
    simp only [List.nil_append, alookup]
    rw [if_neg (fun hh => h hh.symm)]
  | cons kv rest ih =>
    obtain ⟨k0, v0⟩ := kv
    simp only [List.cons_append, alookup]
    by_cases h2 : k0 = k2
    · rw [if_pos h2, if_pos h2]
    · rw [if_neg h2, if_neg h2]
      exact ih

/-- A dict item assignment leaves every other key unchanged. -/
theorem alookup_dictSet_ne (d : Doc) (k : String) (v : JVal) (k2 : String)
    (h : ¬ k2 = k) : alookup (dictSet d k v) k2 = alookup d k2 := by
  unfold dictSet
  by_cases hc : containsKey d k
  · rw [if_pos hc]
    exact alookup_map_setkey d k v k2 h
  · rw [if_neg hc]
    exact alookup_append_single_ne d k v k2 h

/-- C10.  Called with a non-empty metadata dict (and an embedding success),
index_text_with_embedding mutates the caller dict in place: after the call
the dict is the original with the text field and the reserved vector field
assigned into it, and every other pre-existing key still looks up to its
original value. -/
theorem c10_metadata_mutation (env : Env) (text : String)
    (document_id : Option String) (m : Doc) (emb : JVal)
    (hm : m ≠ [])
    (hst : (generate_embedding env (.str text) none).1.get "status" =
      some (.str "success"))
    (hemb : (generate_embedding env (.str text) none).1.get "embedding" =
      some emb) :
    (index_text_with_embedding env text document_id (some m)).2.2 =
      some (dictSet (dictSet m "text" (.str text)) vector_field emb) ∧
    ∀ k2, ¬ k2 = "text" → ¬ k2 = vector_field →
      alookup (dictSet (dictSet m "text" (.str text)) vector_field emb) k2 =
        alookup m k2 := by
  have hmE : m.isEmpty = false := by
    cases m with
    | nil => exact absurd rfl hm
    | cons a l => rfl
  constructor
  · have hstok := (pyGetItem_ok_iff _ _ _).mpr hst
    have hembok := (pyGetItem_ok_iff _ _ _).mpr hemb
    cases document_id with
    | none =>
      cases hw : env.indexDocument
          (.obj (dictSet (dictSet m "text" (.str text)) vector_field emb)) with
      | ok r =>
        simp [index_text_with_embedding, hstok,
          (show isStrEq (.str "success") "success" = true from rfl),
          hembok, hmE, hw, pyFalsyStr]
      | error e =>
        simp [index_text_with_embedding, hstok,
          (show isStrEq (.str "success") "success" = true from rfl),
          hembok, hmE, hw, pyFalsyStr]
    | some did =>
      by_cases hd : (did == "") = true
      · cases hw : env.indexDocument
            (.obj (dictSet (dictSet m "text" (.str text)) vector_field emb)) with
        | ok r =>
          simp [index_text_with_embedding, hstok,
            (show isStrEq (.str "success") "success" = true from rfl),
            hembok, hmE, hw, pyFalsyStr, hd]
        | error e =>
          simp [index_text_with_embedding, hstok,
            (show isStrEq (.str "success") "success" = true from rfl),
            hembok, hmE, hw, pyFalsyStr, hd]
      · have hd2 : (did == "") = false := by simpa using hd
        cases hw : env.writeDocument did
            (.obj (dictSet (dictSet m "text" (.str text)) vector_field emb)) with
        | ok r =>
          simp [index_text_with_embedding, hstok,
            (show isStrEq (.str "success") "success" = true from rfl),
            hembok, hmE, hw, pyFalsyStr, hd2]
        | error e =>
          simp [index_text_with_embedding, hstok,
            (show isStrEq (.str "success") "success" = true from rfl),
            hembok, hmE, hw, pyFalsyStr, hd2]
  · intro k2 ht hv
    rw [alookup_dictSet_ne _ _ _ _ hv]
    exact alookup_dictSet_ne _ _ _ _ ht

/-- Witness for C10 at a concrete environment and one-key metadata dict. -/
theorem c10_witness :
    (index_text_with_embedding env2c "t" none (some [("a", .num 7)])).2.2 =
      some (dictSet (dictSet [("a", .num 7)] "text" (.str "t")) vector_field
        (.arr [.num 1, .num 2, .num 3])) ∧
    alookup (dictSet (dictSet [("a", .num 7)] "text" (.str "t")) vector_field
      (.arr [.num 1, .num 2, .num 3])) "a" = alookup [("a", .num 7)] "a" := by
  have h := c10_metadata_mutation env2c "t" none [("a", .num 7)]
    (.arr [.num 1, .num 2, .num 3]) (by simp) rfl rfl
  exact ⟨h.1, h.2 "a" (by decide) (by decide)⟩

/-- generate_embedding always returns a structured status result. -/
theorem generate_embedding_structured (env : Env) (t : JVal) (m : Option String) :
    structuredB (generate_embedding env t m).1 = true := by
  rcases generate_embedding_shape env t m with ⟨e, h⟩ | ⟨msg, h⟩
  · rw [h]; rfl
  · rw [h]; exact structuredB_errObj msg

/-- knnProcess keeps a structured response structured. -/
theorem knnProcess_preserves_structured (r v : JVal)
    (hr : structuredB r = true) (hp : knnProcess r = .ok v) :
    structuredB v = true := by
  unfold knnProcess at hp
  cases h1 : pyGetItem r "status" with
  | error e => rw [h1, bindErr] at hp; exact absurd hp (by simp)
  | ok st =>
    rw [h1, bindOk] at hp
    by_cases h2 : isStrEq st "success" = true
    · rw [if_pos h2] at hp
      cases h3 : pyContains r "results" with
      | error e => rw [h3, bindErr] at hp; exact absurd hp (by simp)
      | ok hasRes =>
        rw [h3, bindOk] at hp
        by_cases h4 : hasRes = true
        · rw [if_pos h4] at hp
          cases h5 : pyGetItem r "results" with
          | error e => rw [h5, bindErr] at hp; exact absurd hp (by simp)
          | ok resultsV =>
            rw [h5, bindOk] at hp
            cases h6 : pyGet resultsV "hits" (.obj []) with
            | error e => rw [h6, bindErr] at hp; exact absurd hp (by simp)
            | ok hv1 =>
              rw [h6, bindOk] at hp
              cases h7 : pyGet hv1 "hits" (.arr []) with
              | error e => rw [h7, bindErr] at hp; exact absurd hp (by simp)
              | ok hv2 =>
                rw [h7, bindOk] at hp
                cases h8 : pyIter hv2 with
                | error e => rw [h8, bindErr] at hp; exact absurd hp (by simp)
                | ok hits =>
                  rw [h8, bindOk] at hp
                  cases h9 : mapME mkItemE hits with
                  | error e => rw [h9, bindErr] at hp; exact absurd hp (by simp)
                  | ok items =>
                    rw [h9, bindOk] at hp
                    injection hp with hp
                    rw [← hp]
                    rfl
        · rw [if_neg h4] at hp
          injection hp with hp
          rw [← hp]
          exact hr
    · rw [if_neg h2] at hp
      injection hp with hp
      rw [← hp]
      exact hr

/-- Under the search contract knn_search always returns a structured
status result. -/
theorem knn_search_structured (env : Env) (v : JVal) (k : Int)
    (hwf : searchWF env) : structuredB (knn_search env v k).1 = true := by
  cases hl : pyLen v with
  | error e =>
    rw [show (knn_search env v k).1 = errObj ("kNN search error: " ++ e) from
      by simp [knn_search, hl]]
    exact structuredB_errObj _
  | ok n =>
    by_cases hn : n = vector_dimension
    · subst hn
      cases hs : env.searchDocuments (knnQuery v k) k with
      | error e =>
        rw [show (knn_search env v k).1 =
            errObj ("kNN search error: " ++ e) from by simp [knn_search, hl, hs]]
        exact structuredB_errObj _
      | ok r =>
        cases hp : knnProcess r with
        | error e =>
          rw [show (knn_search env v k).1 =
              errObj ("kNN search error: " ++ e) from by
            simp [knn_search, hl, hs, hp]]
          exact structuredB_errObj _
        | ok v2 =>
          rw [show (knn_search env v k).1 = v2 from by simp [knn_search, hl, hs, hp]]
          exact knnProcess_preserves_structured r v2 (hwf _ _ _ hs).1 hp
    · rw [show (knn_search env v k).1 =
          errObj ("Vector dimension mismatch. Expected " ++
            toString vector_dimension ++ ", got " ++ toString n) from by
        simp [knn_search, hl, hn]]
      exact structuredB_errObj _

/-- The two shapes of a structured result. -/
theorem structuredB_cases (v : JVal) (h : structuredB v = true) :
    v.get "status" = some (.str "success") ∨
    (v.get "status" = some (.str "error") ∧
      ∃ s, v.get "message" = some (.str s)) := by
  unfold structuredB at h
  cases hs : v.get "status" with
  | none =>
    rw [hs] at h
    exact absurd h (by simp)
  | some st =>
    rw [hs] at h
    have h3 : (if isStrEq st "success" = true then true
        else if isStrEq st "error" = true then hasStrMessage v
        else false) = true := h
    by_cases h1 : isStrEq st "success" = true
    · left
      exact congrArg some ((isStrEq_eq_true_iff _ _).mp h1)
    · rw [if_neg h1] at h3
      by_cases h2 : isStrEq st "error" = true
      · right
        rw [if_pos h2] at h3
        refine ⟨congrArg some ((isStrEq_eq_true_iff _ _).mp h2), ?_⟩
        unfold hasStrMessage at h3
        cases hm : v.get "message" with
        | none => rw [hm] at h3; exact absurd h3 (by simp)
        | some mv =>
          rw [hm] at h3
          cases mv with
          | str s => exact ⟨s, rfl⟩
          | null => exact absurd h3 (by simp)
          | bool b => exact absurd h3 (by simp)
          | num n => exact absurd h3 (by simp)
          | arr xs => exact absurd h3 (by simp)
          | obj kvs => exact absurd h3 (by simp)
      · rw [if_neg h2] at h3
        exact absurd h3 (by simp)

/-- bulk_index_with_embeddings always returns a structured status result. -/
theorem bulk_structured (env : Env) (docs : List Doc) (f : String) :
    structuredB (bulk_index_with_embeddings env docs f).1 = true := by
  obtain ⟨p, fl, h, _⟩ := bulkLoop_ok env f docs
  by_cases he : p.isEmpty
  · rw [show (bulk_index_with_embeddings env docs f).1 =
        .obj [("status", .str "error"),
              ("message", .str "No documents were processed successfully"),
              ("failed_docs", encodeFailed fl)] from by
      simp [bulk_index_with_embeddings, h, he]]
    rfl
  · cases hw : env.bulkWrite (mkBulkData env.index_name p) with
    | error e =>
      rw [show (bulk_index_with_embeddings env docs f).1 =
          errObj ("Bulk indexing error: " ++ e) from by
        simp [bulk_index_with_embeddings, h, he, hw]]
      exact structuredB_errObj _
    | ok resp =>
      rw [show (bulk_index_with_embeddings env docs f).1 =
          .obj [("status", .str "success"),
                ("response", resp),
                ("processed_count", .num p.length),
                ("failed_count", .num fl.length),
                ("failed_docs", if fl.isEmpty then .null
                                else encodeFailed fl)] from by
        simp [bulk_index_with_embeddings, h, he, hw]]
      rfl

/-- Under the client contract, index_text_with_embedding never faults and
returns a structured status result. -/
theorem index_text_structured (env : Env) (hc : clientContract env)
    (t : String) (id2 : Option String) (md : Option Doc) :
    ∃ r, (index_text_with_embedding env t id2 md).1 = .ok r ∧
      structuredB r = true := by
  obtain ⟨_, _, hwrite, hindex, _⟩ := hc
  rcases generate_embedding_cases env (.str t) none with ⟨hst, e, hemb⟩ |
    ⟨hst, s, hmsg⟩
  · have hstok := (pyGetItem_ok_iff _ _ _).mpr hst
    have hembok := (pyGetItem_ok_iff _ _ _).mpr hemb
    set base : Doc := (match md with
      | some m => if m.isEmpty then [] else m
      | none => []) with hbase
    set d : Doc := dictSet (dictSet base "text" (.str t)) vector_field e
      with hd
    cases id2 with
    | none =>
      obtain ⟨r, hr, hrs⟩ := hindex (.obj d)
      refine ⟨r, ?_, hrs⟩
      simp [index_text_with_embedding, hstok,
        (show isStrEq (.str "success") "success" = true from rfl),
        hembok, pyFalsyStr, ← hbase, ← hd, hr]
    | some did =>
      by_cases hdid : (did == "") = true
      · obtain ⟨r, hr, hrs⟩ := hindex (.obj d)
        refine ⟨r, ?_, hrs⟩
        simp [index_text_with_embedding, hstok,
          (show isStrEq (.str "success") "success" = true from rfl),
          hembok, pyFalsyStr, hdid, ← hbase, ← hd, hr]
      · have hd2 : (did == "") = false := by simpa using hdid
        obtain ⟨r, hr, hrs⟩ := hwrite did (.obj d)
        refine ⟨r, ?_, hrs⟩
        simp [index_text_with_embedding, hstok,
          (show isStrEq (.str "success") "success" = true from rfl),
          hembok, pyFalsyStr, hd2, ← hbase, ← hd, hr]
  · refine ⟨(generate_embedding env (.str t) none).1, ?_,
      generate_embedding_structured env (.str t) none⟩
    simp [index_text_with_embedding, (pyGetItem_ok_iff _ _ _).mpr hst,
      (show isStrEq (.str "error") "success" = false from rfl)]

/-- Under the client contract, text_similarity_search never faults and
returns a structured status result. -/
theorem tss_structured (env : Env) (hc : clientContract env)
    (t : String) (k : Int) :
    ∃ r, (text_similarity_search env t k).1 = .ok r ∧
      structuredB r = true := by
  rcases generate_embedding_cases env (.str t) none with ⟨hst, e, hemb⟩ |
    ⟨hst, s, hmsg⟩
  · have hstok := (pyGetItem_ok_iff _ _ _).mpr hst
    have hembok := (pyGetItem_ok_iff _ _ _).mpr hemb
    have hknn := knn_search_structured env e k hc.2.1
    rcases structuredB_cases _ hknn with hs2 | ⟨hs2, s2, hmsg2⟩
    · obtain ⟨rl, hres, htot⟩ := knn_success_has_results env e k hc.2.1 hs2
      obtain ⟨kvs, hobj⟩ := get_some_obj _ _ _ hres
      have htot2 : alookup kvs "total" = some (.num (rl.length : Int)) := by
        rw [hobj] at htot
        simpa [JVal.get] using htot
      have h7 : pyGet (knn_search env e k).1 "total" (.num 0) =
          .ok (.num (rl.length : Int)) := by
        rw [hobj]
        simp [pyGet, htot2]
      refine ⟨.obj [("status", .str "success"), ("query_text", .str t),
        ("results", .arr rl), ("total", .num (rl.length : Int))], ?_, rfl⟩
      simp only [text_similarity_search, hstok,
        (show isStrEq (.str "success") "success" = true from rfl),
        Bool.not_true, Bool.false_eq_true, if_false, hembok,
        (pyGetItem_ok_iff _ _ _).mpr hs2,
        (pyGetItem_ok_iff _ _ _).mpr hres, h7, if_true]
    · refine ⟨(knn_search env e k).1, ?_, hknn⟩
      simp only [text_similarity_search, hstok,
        (show isStrEq (.str "success") "success" = true from rfl),
        Bool.not_true, Bool.false_eq_true, if_false, hembok,
        (pyGetItem_ok_iff _ _ _).mpr hs2,
        (show isStrEq (.str "error") "success" = false from rfl),
        Bool.not_false, if_true]
  · refine ⟨(generate_embedding env (.str t) none).1, ?_,
      generate_embedding_structured env (.str t) none⟩
    simp [text_similarity_search, (pyGetItem_ok_iff _ _ _).mpr hst,
      (show isStrEq (.str "error") "success" = false from rfl)]

/-- C9.  Under the Index Client contract of spec section 4.2 every workflow
operation returns a structured result with the status discriminator set to
success or error and a message on error; the two operations typed with a
possible fault in the model (no try block of their own) in fact never
fault. -/
theorem c9_never_crash (env : Env) (hc : clientContract env) :
    (∀ t m, structuredB (generate_embedding env t m).1 = true) ∧
    (∀ v k, structuredB (knn_search env v k).1 = true) ∧
    (∀ docs f, structuredB (bulk_index_with_embeddings env docs f).1 = true) ∧
    (∀ t id2 md, ∃ r, (index_text_with_embedding env t id2 md).1 = .ok r ∧
      structuredB r = true) ∧
    (∀ t k, ∃ r, (text_similarity_search env t k).1 = .ok r ∧
      structuredB r = true) :=
  ⟨fun t m => generate_embedding_structured env t m,
   fun v k => knn_search_structured env v k hc.2.1,
   fun docs f => bulk_structured env docs f,
   fun t id2 md => index_text_structured env hc t id2 md,
   fun t k => tss_structured env hc t k⟩

/-- The concrete one-hit environment satisfies the full client contract. -/
theorem env9_contract : clientContract env9 := by
  refine ⟨fun q k => ⟨respD, rfl⟩, ?_, fun i d => ⟨_, rfl, rfl⟩,
    fun d => ⟨_, rfl, rfl⟩, fun b => ⟨_, rfl, rfl⟩⟩
  intro q k r h
  injection h with h
  rw [← h]
  exact ⟨rfl, fun _ => ⟨_, rfl⟩⟩

/-- Witness for C9 at a concrete contract-satisfying environment. -/
theorem c9_witness :
    structuredB (generate_embedding env9 (.str "x") none).1 = true ∧
    structuredB (knn_search env9 (.arr []) 2).1 = true ∧
    structuredB (bulk_index_with_embeddings env9 [] "text").1 = true ∧
    (∃ r, (index_text_with_embedding env9 "x" none none).1 = .ok r ∧
      structuredB r = true) ∧
    (∃ r, (text_similarity_search env9 "x" 2).1 = .ok r ∧
      structuredB r = true) := by
  have h := c9_never_crash env9 env9_contract
  exact ⟨h.1 (.str "x") none, h.2.1 (.arr []) 2, h.2.2.1 [] "text",
    h.2.2.2.1 "x" none none, h.2.2.2.2 "x" 2⟩

end AosMcp
